import Mathlib

/-!
Shallow embedding of `ut803.py`, the frame decoder for the UNI-T UT803
multimeter, together with theorems checking the natural-language
specification of the decoder against the code.

Modelling conventions:
* Python floats are modelled as exact rationals (`ℚ`); `10 ** e` with an
  `int` exponent becomes `(10 : ℚ) ^ (e : ℤ)`.
* Python exceptions are modelled by the `PyError` type: `chrToInt`'s
  `TypeError`, the `KeyError` of the `measurement_type_table` lookup, and
  the `ValueError` of `int()`.
* `UT803.read` returns `ReadResult.none` when the line length is not 11
  (the Python function returns `None` there), `ReadResult.error` when one
  of the called functions raises, and `ReadResult.ok` with the decoded
  reading otherwise.  The serial-port plumbing (`self.conn`) is out of
  scope; `read` is modelled as a function of the line it would read.
* The line comes from `bytes.decode("ascii")`, so every character of the
  input has code point < 128; `pyInt` models CPython's `int(str)` on such
  ASCII strings (strip whitespace, optional single sign, decimal digits
  with single underscores allowed between digits).
-/

/-- Python exceptions raised by the decoding path of `ut803.py`. -/
inductive PyError where
  | typeError (msg : String)
  | keyError (key : Nat)
  | valueError (msg : String)
deriving DecidableEq

/-- `chrToInt` from `ut803.py`: ASCII value minus 48; valid results are
0–15 (characters 0123456789:;<=>?), anything else raises `TypeError`. -/
def chrToInt (c : Char) : Except PyError Nat :=
  let num : Int := (c.toNat : Int) - 48
  if 0 ≤ num ∧ num ≤ 15 then .ok num.toNat
  else .error (.typeError "Invalid numeric character")

/-- Characters stripped by CPython's `int(str)` for ASCII input
(`str.isspace` restricted to ASCII). -/
def isPySpace (c : Char) : Bool :=
  c = ' ' || c = '\t' || c = '\n' || c = '\r' || c = '\x0b' || c = '\x0c'

/-- Digit run of a CPython integer literal after the first digit: decimal
digits with single underscores allowed between two digits. -/
def digitsVal : List Char → Nat → Option Nat
  | [], acc => some acc
  | c :: rest, acc =>
    if c = '_' then
      match rest with
      | [] => none
      | d :: rest2 =>
        if d.isDigit then digitsVal rest2 (acc * 10 + (d.toNat - 48)) else none
    else
      if c.isDigit then digitsVal rest (acc * 10 + (c.toNat - 48)) else none

/-- Unsigned part of a CPython base-10 integer literal: a nonempty digit
run, underscores only between digits. -/
def pyIntCore : List Char → Option Nat
  | [] => none
  | c :: rest => if c.isDigit then digitsVal rest (c.toNat - 48) else none

/-- CPython's `int(s)` on ASCII strings: strip whitespace, then an
optional `+`/`-` sign immediately followed by the digits; raises
`ValueError` otherwise. -/
def pyInt (s : String) : Except PyError Int :=
  let cs := ((s.data.dropWhile isPySpace).reverse.dropWhile isPySpace).reverse
  match cs with
  | '+' :: rest =>
    match pyIntCore rest with
    | some n => .ok (n : Int)
    | none => .error (.valueError ("invalid literal for int() with base 10: " ++ s))
  | '-' :: rest =>
    match pyIntCore rest with
    | some n => .ok (-(n : Int))
    | none => .error (.valueError ("invalid literal for int() with base 10: " ++ s))
  | other =>
    match pyIntCore other with
    | some n => .ok (n : Int)
    | none => .error (.valueError ("invalid literal for int() with base 10: " ++ s))

namespace UT803

/-- `UT803.measurement_type_table`, a dict from kind nibble to kind name;
a missing key raises `KeyError` at the lookup site in `read`. -/
def measurement_type_table (m : Nat) : Option String :=
  if m = 1 then some "diode"
  else if m = 2 then some "frequency"
  else if m = 3 then some "resistance"
  else if m = 4 then some "temperature"
  else if m = 5 then some "continuity"
  else if m = 6 then some "capacitance"
  else if m = 9 then some "current"
  else if m = 11 then some "voltage"
  else if m = 13 then some "current"
  else if m = 14 then some "hFE"
  else if m = 15 then some "current"
  else none

/-- `UT803.getUnit`: the `static_units` dict, then the temperature
special case on bit 3 of `flags[0]`, then the `"???"` fallback. -/
def getUnit (measurement : Nat) (flags : List Nat) : String :=
  if measurement = 1 then "V"
  else if measurement = 2 then "Hz"
  else if measurement = 3 then "Ohm"
  else if measurement = 5 then "Ohm"
  else if measurement = 6 then "F"
  else if measurement = 9 then "A"
  else if measurement = 11 then "V"
  else if measurement = 13 then "uA"
  else if measurement = 14 then ""
  else if measurement = 15 then "mA"
  else if measurement = 4 then (if flags.getD 0 0 &&& 0x8 ≠ 0 then "°C" else "°F")
  else "???"

/-- `UT803.getExponentOffsetForUnit`: dict lookup with `KeyError`
handled as 0. -/
def getExponentOffsetForUnit (unit : String) : Int :=
  if unit = "V" then -3
  else if unit = "Ohm" then -1
  else if unit = "A" then -2
  else if unit = "mA" then -2
  else if unit = "uA" then -1
  else if unit = "F" then -3 - 9
  else 0

/-- The `flags_dict` built at the end of `UT803.read`. -/
structure FlagsDict where
  overload : Bool
  sign : Bool
  not_farenheit : Bool
  min : Bool
  max : Bool
  hold : Bool
  autorange : Bool
  ac : Bool
  dc : Bool
deriving DecidableEq

/-- The tuple `(value, unit, meas_type, flags_dict)` returned by
`UT803.read` on success. -/
structure Reading where
  value : ℚ
  unit : String
  measType : String
  flags : FlagsDict
deriving DecidableEq

/-- Result of one call to `UT803.read`: `None` for a line of wrong
length, a raised exception, or a decoded reading. -/
inductive ReadResult where
  | none
  | error (e : PyError)
  | ok (r : Reading)
deriving DecidableEq

/-- Body of `UT803.read` after the length check, on the 9 characters the
decoder uses (positions 9–10 are never read).  Statement order follows
the source: kind nibble, table lookup, the three flag nibbles (in order),
unit, exponent nibble, `int(line[1:5])`, value. -/
def readFrame (c0 c1 c2 c3 c4 c5 c6 c7 c8 : Char) : ReadResult :=
  match chrToInt c5 with
  | .error e => .error e
  | .ok measurement =>
  match measurement_type_table measurement with
  | Option.none => .error (.keyError measurement)
  | some meas_type =>
  match chrToInt c6 with
  | .error e => .error e
  | .ok f0 =>
  match chrToInt c7 with
  | .error e => .error e
  | .ok f1 =>
  match chrToInt c8 with
  | .error e => .error e
  | .ok f2 =>
  let flags := [f0, f1, f2]
  let overload := f0 &&& 0x1
  let sign := f0 &&& 0x4
  let not_farenheit := f0 &&& 0x8
  let minimum := f1 &&& 0x2
  let maximum := f1 &&& 0x4
  let hold := f1 &&& 0x8
  let autorange := f2 &&& 0x2
  let ac := f2 &&& 0x4
  let dc := f2 &&& 0x8
  let unit := getUnit measurement flags
  match chrToInt c0 with
  | .error e => .error e
  | .ok e0 =>
  let exponent : Int := if unit = "V" ∧ e0 &&& 0x4 ≠ 0 then (e0 : Int) - 2 else (e0 : Int)
  let exponent := exponent + getExponentOffsetForUnit unit
  match pyInt (String.mk [c1, c2, c3, c4]) with
  | .error e => .error e
  | .ok base_value =>
  let value : ℚ := (base_value : ℚ) * (10 : ℚ) ^ exponent
  let value := if sign ≠ 0 then value * (-1) else value
  .ok {
    value := value
    unit := unit
    measType := meas_type
    flags := {
      overload := decide (0 < overload)
      sign := decide (0 < sign)
      not_farenheit := decide (0 < not_farenheit)
      min := decide (0 < minimum)
      max := decide (0 < maximum)
      hold := decide (0 < hold)
      autorange := decide (0 < autorange)
      ac := decide (0 < ac)
      dc := decide (0 < dc)
    }
  }

/-- `UT803.read` on the line it would read from the serial port. -/
def read (line : String) : ReadResult :=
  match line.data with
  | [c0, c1, c2, c3, c4, c5, c6, c7, c8, _, _] =>
      readFrame c0 c1 c2 c3 c4 c5 c6 c7 c8
  | _ => ReadResult.none

end UT803

/-- `prettyValueFormat` from `ut803.py`, over exact rationals (the float
literals `1e-9`, …, `1e-6` read as their exact decimal values). -/
def prettyValueFormat (value : ℚ) (unit : String) : ℚ × String :=
  if value = 0 then (value, unit)
  else if value < 1 / 10 ^ 9 then (value * 10 ^ 12, "p" ++ unit)
  else if value < 1 / 10 ^ 6 then (value * 10 ^ 9, "n" ++ unit)
  else if value < 1 / 10 ^ 3 then (value * 10 ^ 6, "u" ++ unit)
  else if value < 1 then (value * 10 ^ 3, "m" ++ unit)
  else if value < 10 ^ 3 then (value, unit)
  else if value < 10 ^ 6 then (value * (1 / 10 ^ 3), "k" ++ unit)
  else (value * (1 / 10 ^ 6), "M" ++ unit)

open UT803



/-! ### Helper definitions and lemmas shared by the claim theorems -/

/-- The underlying character list of a literal `String.mk`. -/
theorem string_mk_data (l : List Char) : (String.mk l).data = l := rfl

/-- Spec formula for the final decimal exponent (§4.1 step 7): starting
from the exponent-selector nibble `e0`, subtract 2 exactly when the
resolved unit is `"V"` and bit 2 of `e0` is set, then add the unit's
exponent offset. -/
def spec_exponent (unit : String) (e0 : Nat) : Int :=
  (if unit = "V" ∧ e0 &&& 0x4 ≠ 0 then (e0 : Int) - 2 else (e0 : Int)) +
    UT803.getExponentOffsetForUnit unit

/-- The flag dictionary `UT803.read` builds from the three flag nibbles. -/
def flagsDictOf (f0 f1 f2 : Nat) : UT803.FlagsDict :=
  ⟨decide (0 < f0 &&& 0x1), decide (0 < f0 &&& 0x4), decide (0 < f0 &&& 0x8),
   decide (0 < f1 &&& 0x2), decide (0 < f1 &&& 0x4), decide (0 < f1 &&& 0x8),
   decide (0 < f2 &&& 0x2), decide (0 < f2 &&& 0x4), decide (0 < f2 &&& 0x8)⟩

/-- `UT803.read` on an 11-character line runs the frame decoder on the
first 9 characters. -/
theorem read_mk (c0 c1 c2 c3 c4 c5 c6 c7 c8 c9 c10 : Char) :
    UT803.read (String.mk [c0, c1, c2, c3, c4, c5, c6, c7, c8, c9, c10]) =
      UT803.readFrame c0 c1 c2 c3 c4 c5 c6 c7 c8 := rfl

/-- Forward evaluation of `UT803.readFrame` when every component of the
frame decodes: the result is the reading given by the spec's
value/sign/unit formulas. -/
theorem readFrame_eq (c0 c1 c2 c3 c4 c5 c6 c7 c8 : Char) (m f0 f1 f2 e0 : Nat)
    (k : String) (b : Int)
    (h5 : chrToInt c5 = .ok m) (hm : UT803.measurement_type_table m = some k)
    (h6 : chrToInt c6 = .ok f0) (h7 : chrToInt c7 = .ok f1) (h8 : chrToInt c8 = .ok f2)
    (h0 : chrToInt c0 = .ok e0) (hb : pyInt (String.mk [c1, c2, c3, c4]) = .ok b) :
    UT803.readFrame c0 c1 c2 c3 c4 c5 c6 c7 c8 = .ok
      ⟨(if f0 &&& 0x4 ≠ 0 then
          -((b : ℚ) * (10 : ℚ) ^ spec_exponent (UT803.getUnit m [f0, f1, f2]) e0)
        else (b : ℚ) * (10 : ℚ) ^ spec_exponent (UT803.getUnit m [f0, f1, f2]) e0),
       UT803.getUnit m [f0, f1, f2], k, flagsDictOf f0 f1 f2⟩ := by
  simp only [UT803.readFrame, h5, hm, h6, h7, h8, h0, hb, spec_exponent, flagsDictOf,
    mul_neg_one]

/-- Any measurement code accepted by the kind table resolves to a unit
other than the `"???"` fallback. -/
theorem getUnit_ne_unknown (m : Nat) (k : String) (fs : List Nat)
    (hm : UT803.measurement_type_table m = some k) :
    UT803.getUnit m fs ≠ "???" := by
  have hmem : m = 1 ∨ m = 2 ∨ m = 3 ∨ m = 4 ∨ m = 5 ∨ m = 6 ∨ m = 9 ∨ m = 11 ∨
      m = 13 ∨ m = 14 ∨ m = 15 := by
    by_contra hc
    push_neg at hc
    obtain ⟨n1, n2, n3, n4, n5, n6, n9, n11, n13, n14, n15⟩ := hc
    simp only [UT803.measurement_type_table, n1, n2, n3, n4, n5, n6, n9, n11, n13, n14,
      n15, if_false] at hm
    exact Option.noConfusion hm
  rcases hmem with h | h | h | h | h | h | h | h | h | h | h <;> subst h <;>
    simp [UT803.getUnit]
  split <;> simp

/-! ### Claim theorems -/

/-- C1: for every well-formed frame, the decoded value equals the base
magnitude times `10 ^ exponent` (with the exponent given by the spec
formula), negated exactly when bit 2 of `flags[0]` is set; in particular
the voltage frame with exponent nibble 4 and digits 1234 decodes to
123.4 V, and the capacitance frame with exponent nibble 0 and digits
5000 decodes to 5e-9 F. -/
theorem C1_value_formula :
    (∀ (c0 c1 c2 c3 c4 c5 c6 c7 c8 c9 c10 : Char) (m f0 f1 f2 e0 : Nat)
        (k : String) (b : Int),
      chrToInt c5 = .ok m → UT803.measurement_type_table m = some k →
      chrToInt c6 = .ok f0 → chrToInt c7 = .ok f1 → chrToInt c8 = .ok f2 →
      chrToInt c0 = .ok e0 → pyInt (String.mk [c1, c2, c3, c4]) = .ok b →
      UT803.read (String.mk [c0, c1, c2, c3, c4, c5, c6, c7, c8, c9, c10]) = .ok
        ⟨(if f0 &&& 0x4 ≠ 0 then
            -((b : ℚ) * (10 : ℚ) ^ spec_exponent (UT803.getUnit m [f0, f1, f2]) e0)
          else (b : ℚ) * (10 : ℚ) ^ spec_exponent (UT803.getUnit m [f0, f1, f2]) e0),
         UT803.getUnit m [f0, f1, f2], k, flagsDictOf f0 f1 f2⟩)
    ∧ UT803.read "41234;000\r\n" = .ok ⟨617 / 5, "V", "voltage", flagsDictOf 0 0 0⟩
    ∧ UT803.read "050006000\r\n" = .ok ⟨5 / 10 ^ 9, "F", "capacitance", flagsDictOf 0 0 0⟩ := by
  refine ⟨?_, ?_, ?_⟩
  · intro c0 c1 c2 c3 c4 c5 c6 c7 c8 c9 c10 m f0 f1 f2 e0 k b h5 hm h6 h7 h8 h0 hb
    rw [read_mk, readFrame_eq c0 c1 c2 c3 c4 c5 c6 c7 c8 m f0 f1 f2 e0 k b h5 hm h6 h7 h8 h0 hb]
  · rw [show UT803.read "41234;000\r\n" =
        .ok ⟨((1234 : ℤ) : ℚ) * (10 : ℚ) ^ (-1 : ℤ), "V", "voltage", flagsDictOf 0 0 0⟩ from rfl]
    norm_num
  · rw [show UT803.read "050006000\r\n" =
        .ok ⟨((5000 : ℤ) : ℚ) * (10 : ℚ) ^ (-12 : ℤ), "F", "capacitance", flagsDictOf 0 0 0⟩ from rfl]
    norm_num

/-- Witness for C1: the voltage example frame instantiates the general
value formula with every hypothesis discharged by computation. -/
theorem C1_value_formula_witness :
    UT803.read (String.mk ['4', '1', '2', '3', '4', ';', '0', '0', '0', '\r', '\n']) = .ok
      ⟨(1234 : ℚ) * (10 : ℚ) ^ spec_exponent "V" 4, "V", "voltage", flagsDictOf 0 0 0⟩ :=
  C1_value_formula.1 '4' '1' '2' '3' '4' ';' '0' '0' '0' '\r' '\n' 11 0 0 0 4 "voltage" 1234
    rfl rfl rfl rfl rfl rfl rfl

/-- C4: the kind table contains exactly the eleven listed entries, every
other nibble value is absent from it, and a frame whose (valid) kind
nibble is absent makes `read` raise `KeyError` — no reading is produced
and there is no silent default; in particular kind nibble 7 fails with
`KeyError 7`. -/
theorem C4_kind_table :
    (UT803.measurement_type_table 1 = some "diode" ∧
     UT803.measurement_type_table 2 = some "frequency" ∧
     UT803.measurement_type_table 3 = some "resistance" ∧
     UT803.measurement_type_table 4 = some "temperature" ∧
     UT803.measurement_type_table 5 = some "continuity" ∧
     UT803.measurement_type_table 6 = some "capacitance" ∧
     UT803.measurement_type_table 9 = some "current" ∧
     UT803.measurement_type_table 11 = some "voltage" ∧
     UT803.measurement_type_table 13 = some "current" ∧
     UT803.measurement_type_table 14 = some "hFE" ∧
     UT803.measurement_type_table 15 = some "current")
    ∧ (∀ n : Nat, n ≤ 15 → n ∉ [1, 2, 3, 4, 5, 6, 9, 11, 13, 14, 15] →
        UT803.measurement_type_table n = none)
    ∧ (∀ (c0 c1 c2 c3 c4 c5 c6 c7 c8 c9 c10 : Char) (m : Nat),
        chrToInt c5 = .ok m → UT803.measurement_type_table m = none →
        UT803.read (String.mk [c0, c1, c2, c3, c4, c5, c6, c7, c8, c9, c10]) =
          .error (.keyError m))
    ∧ UT803.read "012347000\r\n" = .error (.keyError 7) := by
  refine ⟨⟨rfl, rfl, rfl, rfl, rfl, rfl, rfl, rfl, rfl, rfl, rfl⟩, by decide, ?_, rfl⟩
  intro c0 c1 c2 c3 c4 c5 c6 c7 c8 c9 c10 m h5 hm
  rw [read_mk]
  simp only [UT803.readFrame, h5, hm]

/-- Witness for C4: a frame with the valid but unmapped kind nibble 10
(character `:`) raises `KeyError 10`. -/
theorem C4_kind_table_witness :
    UT803.read (String.mk ['0', '1', '2', '3', '4', ':', '0', '0', '0', '\r', '\n']) =
      .error (.keyError 10) :=
  C4_kind_table.2.2.1 '0' '1' '2' '3' '4' ':' '0' '0' '0' '\r' '\n' 10 rfl rfl

/-- Code-point bounds of a decimal digit character. -/
theorem toNat_bounds_of_isDigit {c : Char} (h : c.isDigit = true) :
    48 ≤ c.toNat ∧ c.toNat ≤ 57 := by
  simp only [Char.isDigit, Bool.and_eq_true, decide_eq_true_eq] at h
  obtain ⟨h1, h2⟩ := h
  rw [ge_iff_le, UInt32.le_def, BitVec.le_def] at h1
  rw [UInt32.le_def, BitVec.le_def] at h2
  exact ⟨h1, h2⟩

/-- The order on `Char` is the order of the code points. -/
theorem char_le_iff {a b : Char} : a ≤ b ↔ a.toNat ≤ b.toNat := by
  rw [Char.le_def, UInt32.le_def, BitVec.le_def]
  exact Iff.rfl

/-- A decimal digit character is distinct from any non-digit character. -/
theorem ne_of_isDigit {c : Char} (h : c.isDigit = true) (x : Char)
    (hx : x.isDigit = false) : c ≠ x := by
  intro hcx
  rw [hcx, hx] at h
  exact Bool.noConfusion h

/-- A decimal digit character is not stripped as whitespace. -/
theorem isPySpace_eq_false_of_isDigit {c : Char} (h : c.isDigit = true) :
    isPySpace c = false := by
  by_contra hc
  rw [Bool.not_eq_false] at hc
  simp only [isPySpace, Bool.or_eq_true, decide_eq_true_eq] at hc
  rcases hc with ((((h1 | h1) | h1) | h1) | h1) | h1 <;> subst h1 <;>
    exact absurd h (by decide)

/-- `int()` on four decimal digit characters returns their base-10 value. -/
theorem pyInt_digits (c1 c2 c3 c4 : Char) (h1 : c1.isDigit = true)
    (h2 : c2.isDigit = true) (h3 : c3.isDigit = true) (h4 : c4.isDigit = true) :
    pyInt (String.mk [c1, c2, c3, c4]) =
      .ok ((((c1.toNat - 48) * 10 + (c2.toNat - 48)) * 10 + (c3.toNat - 48)) * 10 +
            (c4.toNat - 48) : Nat) := by
  have s1 := isPySpace_eq_false_of_isDigit h1
  have s4 := isPySpace_eq_false_of_isDigit h4
  have n1p := ne_of_isDigit h1 '+' (by decide)
  have n1m := ne_of_isDigit h1 '-' (by decide)
  have u2 := ne_of_isDigit h2 '_' (by decide)
  have u3 := ne_of_isDigit h3 '_' (by decide)
  have u4 := ne_of_isDigit h4 '_' (by decide)
  unfold pyInt
  rw [string_mk_data]
  simp only [List.dropWhile_cons, s1, s4, Bool.false_eq_true, if_false,
    List.reverse_cons, List.reverse_nil, List.nil_append, List.cons_append,
    List.append_nil]
  split
  · next rest heq =>
    simp only [List.cons.injEq] at heq
    exact absurd heq.1 n1p
  · next rest heq =>
    simp only [List.cons.injEq] at heq
    exact absurd heq.1 n1m
  · have hcore : pyIntCore [c1, c2, c3, c4] =
        some ((((c1.toNat - 48) * 10 + (c2.toNat - 48)) * 10 + (c3.toNat - 48)) * 10 +
              (c4.toNat - 48)) := by
      simp [pyIntCore, digitsVal, h1, h2, h3, h4, u2, u3, u4]
    rw [hcore]

/-- C2 counterexample: a frame with `-123` in positions 1–4 is accepted
by the decoder (with negative base magnitude), although the claim
requires any non-digit character there to be rejected. -/
theorem C2_counterexample :
    UT803.read "0-123;000\r\n" =
      .ok ⟨-123 / 10 ^ 3, "V", "voltage", flagsDictOf 0 0 0⟩ := by
  rw [show UT803.read "0-123;000\r\n" =
      .ok ⟨((-123 : ℤ) : ℚ) * (10 : ℚ) ^ (-3 : ℤ), "V", "voltage", flagsDictOf 0 0 0⟩ from rfl]
  norm_num

/-- C2 (amended): positions 1–4 are passed to Python `int()`; when all
four characters are decimal digits the result is their base-10 value, an
unsigned integer at most 9999; a slice that is not a valid integer
literal (such as `abcd`) raises `ValueError`; but a slice that parses
with a sign or whitespace (such as ` 123`) is accepted rather than
rejected. -/
theorem C2_base_magnitude_parse :
    (∀ c1 c2 c3 c4 : Char, c1.isDigit = true → c2.isDigit = true →
      c3.isDigit = true → c4.isDigit = true →
      pyInt (String.mk [c1, c2, c3, c4]) =
        .ok ((((c1.toNat - 48) * 10 + (c2.toNat - 48)) * 10 + (c3.toNat - 48)) * 10 +
              (c4.toNat - 48) : Nat) ∧
      (((c1.toNat - 48) * 10 + (c2.toNat - 48)) * 10 + (c3.toNat - 48)) * 10 +
        (c4.toNat - 48) ≤ 9999)
    ∧ UT803.read "0abcd;000\r\n" =
        .error (.valueError "invalid literal for int() with base 10: abcd")
    ∧ UT803.read "0 123;000\r\n" =
        .ok ⟨123 / 10 ^ 3, "V", "voltage", flagsDictOf 0 0 0⟩ := by
  refine ⟨?_, rfl, ?_⟩
  · intro c1 c2 c3 c4 h1 h2 h3 h4
    refine ⟨pyInt_digits c1 c2 c3 c4 h1 h2 h3 h4, ?_⟩
    obtain ⟨-, b1⟩ := toNat_bounds_of_isDigit h1
    obtain ⟨-, b2⟩ := toNat_bounds_of_isDigit h2
    obtain ⟨-, b3⟩ := toNat_bounds_of_isDigit h3
    obtain ⟨-, b4⟩ := toNat_bounds_of_isDigit h4
    omega
  · rw [show UT803.read "0 123;000\r\n" =
        .ok ⟨((123 : ℤ) : ℚ) * (10 : ℚ) ^ (-3 : ℤ), "V", "voltage", flagsDictOf 0 0 0⟩ from rfl]
    norm_num

/-- Witness for C2: the digit slice `1234` parses to 1234 ≤ 9999. -/
theorem C2_base_magnitude_parse_witness :
    pyInt (String.mk ['1', '2', '3', '4']) = .ok 1234 ∧ 1234 ≤ 9999 :=
  C2_base_magnitude_parse.1 '1' '2' '3' '4' rfl rfl rfl rfl

/-- C3 counterexample: `0.0000000005 = 5e-10` is below the `1e-9`
threshold, so `prettyValueFormat` takes the pico branch and returns
`(500, "pV")`, not `(0.5, "nV")` as claimed. -/
theorem C3_counterexample :
    prettyValueFormat (5 / 10 ^ 10) "V" = (500, "pV") ∧
    prettyValueFormat (5 / 10 ^ 10) "V" ≠ (1 / 2, "nV") := by
  have h : prettyValueFormat (5 / 10 ^ 10) "V" = (500, "pV") := by
    norm_num [prettyValueFormat]
    try rfl
  refine ⟨h, ?_⟩
  rw [h]
  intro hc
  rw [Prod.mk.injEq] at hc
  exact absurd hc.1 (by norm_num)

/-- C3 (amended): `prettyValueFormat` maps `0.0000000005` to
`(500, "p" + unit)` (the value is below the `1e-9` threshold, so the
pico branch applies), maps `1500` to `(1.5, "k" + unit)`, and maps `0`
to `(0, unit)` unchanged. -/
theorem C3_pretty_format :
    ∀ unit : String,
      prettyValueFormat (5 / 10 ^ 10) unit = (500, "p" ++ unit) ∧
      prettyValueFormat 1500 unit = (3 / 2, "k" ++ unit) ∧
      prettyValueFormat 0 unit = (0, unit) := by
  intro unit
  refine ⟨?_, ?_, ?_⟩ <;> norm_num [prettyValueFormat]

/-- C5: two is subtracted from the exponent-selector nibble exactly when
the resolved unit is `"V"` and bit 2 of the nibble is set, and the final
exponent is the (possibly adjusted) nibble plus the unit's exponent
offset; since kind code 1 (diode) also resolves to `"V"`, the adjustment
applies to diode frames exactly as to voltage frames. -/
theorem C5_voltage_exponent_adjustment :
    (∀ (c0 c1 c2 c3 c4 c5 c6 c7 c8 c9 c10 : Char) (m f0 f1 f2 e0 : Nat)
        (k : String) (b : Int),
      chrToInt c5 = .ok m → UT803.measurement_type_table m = some k →
      chrToInt c6 = .ok f0 → chrToInt c7 = .ok f1 → chrToInt c8 = .ok f2 →
      chrToInt c0 = .ok e0 → pyInt (String.mk [c1, c2, c3, c4]) = .ok b →
      UT803.getUnit m [f0, f1, f2] = "V" → e0 &&& 0x4 ≠ 0 →
      UT803.read (String.mk [c0, c1, c2, c3, c4, c5, c6, c7, c8, c9, c10]) = .ok
        ⟨(if f0 &&& 0x4 ≠ 0 then
            -((b : ℚ) * (10 : ℚ) ^ ((e0 : ℤ) - 2 + UT803.getExponentOffsetForUnit "V"))
          else (b : ℚ) * (10 : ℚ) ^ ((e0 : ℤ) - 2 + UT803.getExponentOffsetForUnit "V")),
         "V", k, flagsDictOf f0 f1 f2⟩)
    ∧ (∀ (c0 c1 c2 c3 c4 c5 c6 c7 c8 c9 c10 : Char) (m f0 f1 f2 e0 : Nat)
        (k : String) (b : Int),
      chrToInt c5 = .ok m → UT803.measurement_type_table m = some k →
      chrToInt c6 = .ok f0 → chrToInt c7 = .ok f1 → chrToInt c8 = .ok f2 →
      chrToInt c0 = .ok e0 → pyInt (String.mk [c1, c2, c3, c4]) = .ok b →
      ¬(UT803.getUnit m [f0, f1, f2] = "V" ∧ e0 &&& 0x4 ≠ 0) →
      UT803.read (String.mk [c0, c1, c2, c3, c4, c5, c6, c7, c8, c9, c10]) = .ok
        ⟨(if f0 &&& 0x4 ≠ 0 then
            -((b : ℚ) * (10 : ℚ) ^
              ((e0 : ℤ) + UT803.getExponentOffsetForUnit (UT803.getUnit m [f0, f1, f2])))
          else (b : ℚ) * (10 : ℚ) ^
              ((e0 : ℤ) + UT803.getExponentOffsetForUnit (UT803.getUnit m [f0, f1, f2]))),
         UT803.getUnit m [f0, f1, f2], k, flagsDictOf f0 f1 f2⟩)
    ∧ (∀ fs : List Nat, UT803.getUnit 1 fs = "V")
    ∧ UT803.read "412341000\r\n" = .ok ⟨617 / 5, "V", "diode", flagsDictOf 0 0 0⟩ := by
  refine ⟨?_, ?_, fun fs => rfl, ?_⟩
  · intro c0 c1 c2 c3 c4 c5 c6 c7 c8 c9 c10 m f0 f1 f2 e0 k b h5 hm h6 h7 h8 h0 hb hU hbit
    rw [read_mk, readFrame_eq c0 c1 c2 c3 c4 c5 c6 c7 c8 m f0 f1 f2 e0 k b h5 hm h6 h7 h8 h0 hb,
      hU]
    simp [spec_exponent, hbit]
  · intro c0 c1 c2 c3 c4 c5 c6 c7 c8 c9 c10 m f0 f1 f2 e0 k b h5 hm h6 h7 h8 h0 hb hn
    rw [read_mk, readFrame_eq c0 c1 c2 c3 c4 c5 c6 c7 c8 m f0 f1 f2 e0 k b h5 hm h6 h7 h8 h0 hb]
    simp [spec_exponent, if_neg hn]
  · rw [show UT803.read "412341000\r\n" =
        .ok ⟨((1234 : ℤ) : ℚ) * (10 : ℚ) ^ (-1 : ℤ), "V", "diode", flagsDictOf 0 0 0⟩ from rfl]
    norm_num

/-- Witness for C5: a voltage frame with bit 2 of the exponent nibble set
instantiates the adjusted-exponent branch with all hypotheses discharged. -/
theorem C5_voltage_exponent_adjustment_witness :
    UT803.read (String.mk ['4', '5', '6', '7', '8', ';', '0', '0', '0', '\r', '\n']) = .ok
      ⟨(5678 : ℚ) * (10 : ℚ) ^ ((4 : ℤ) - 2 + UT803.getExponentOffsetForUnit "V"),
       "V", "voltage", flagsDictOf 0 0 0⟩ :=
  C5_voltage_exponent_adjustment.1 '4' '5' '6' '7' '8' ';' '0' '0' '0' '\r' '\n'
    11 0 0 0 4 "voltage" 5678 rfl rfl rfl rfl rfl rfl rfl rfl (by decide)

/-- C6: the static unit table maps each kind code to exactly the listed
unit string (the three current codes 9, 13, 15 keep distinct units), and
the exponent offset is exactly the listed value for the six scaled units
and 0 for every other unit string. -/
theorem C6_unit_and_offset_tables :
    (∀ fs : List Nat,
      UT803.getUnit 1 fs = "V" ∧ UT803.getUnit 2 fs = "Hz" ∧
      UT803.getUnit 3 fs = "Ohm" ∧ UT803.getUnit 5 fs = "Ohm" ∧
      UT803.getUnit 6 fs = "F" ∧ UT803.getUnit 9 fs = "A" ∧
      UT803.getUnit 11 fs = "V" ∧ UT803.getUnit 13 fs = "uA" ∧
      UT803.getUnit 14 fs = "" ∧ UT803.getUnit 15 fs = "mA")
    ∧ (UT803.getExponentOffsetForUnit "V" = -3 ∧
       UT803.getExponentOffsetForUnit "Ohm" = -1 ∧
       UT803.getExponentOffsetForUnit "A" = -2 ∧
       UT803.getExponentOffsetForUnit "mA" = -2 ∧
       UT803.getExponentOffsetForUnit "uA" = -1 ∧
       UT803.getExponentOffsetForUnit "F" = -12)
    ∧ (∀ u : String, u ≠ "V" → u ≠ "Ohm" → u ≠ "A" → u ≠ "mA" → u ≠ "uA" → u ≠ "F" →
        UT803.getExponentOffsetForUnit u = 0) := by
  refine ⟨fun fs => ⟨rfl, rfl, rfl, rfl, rfl, rfl, rfl, rfl, rfl, rfl⟩,
    ⟨rfl, rfl, rfl, rfl, rfl, rfl⟩, ?_⟩
  intro u h1 h2 h3 h4 h5 h6
  simp [UT803.getExponentOffsetForUnit, h1, h2, h3, h4, h5, h6]

/-- Witness for C6: the diode row of the unit table and the zero offset
of the unscaled unit `"Hz"`. -/
theorem C6_unit_and_offset_tables_witness :
    UT803.getUnit 1 [] = "V" ∧ UT803.getExponentOffsetForUnit "Hz" = 0 :=
  ⟨(C6_unit_and_offset_tables.1 []).1,
   C6_unit_and_offset_tables.2.2 "Hz" (by decide) (by decide) (by decide) (by decide)
     (by decide) (by decide)⟩

/-- C7 counterexample: frames with an invalid nibble character at
position 5 and at position 6 raise the same fixed
`TypeError "Invalid numeric character"`; the error does not name the
offending position, contrary to the claim. -/
theorem C7_counterexample :
    UT803.read "01234G000\r\n" = .error (.typeError "Invalid numeric character") ∧
    UT803.read "01234;G00\r\n" = .error (.typeError "Invalid numeric character") :=
  ⟨rfl, rfl⟩

/-- C7 (amended): for every character `c`, nibble decoding returns
`codepoint(c) - codepoint('0')` when `c` is in the range `'0'..'?'`, and
for every other character fails with the fixed error
`TypeError "Invalid numeric character"`, which does not name the
offending position. -/
theorem C7_chrToInt_range :
    ∀ c : Char,
      ('0' ≤ c → c ≤ '?' → chrToInt c = .ok (c.toNat - 48)) ∧
      (¬('0' ≤ c ∧ c ≤ '?') →
        chrToInt c = .error (.typeError "Invalid numeric character")) := by
  intro c
  constructor
  · intro hl hu
    rw [char_le_iff] at hl hu
    have hl' : 48 ≤ c.toNat := hl
    have hu' : c.toNat ≤ 63 := hu
    have hcond : 0 ≤ (c.toNat : ℤ) - 48 ∧ (c.toNat : ℤ) - 48 ≤ 15 := by omega
    simp only [chrToInt]
    rw [if_pos hcond]
    congr 1
    omega
  · intro hn
    rw [char_le_iff, char_le_iff] at hn
    have hn' : ¬(48 ≤ c.toNat ∧ c.toNat ≤ 63) := hn
    have hcond : ¬(0 ≤ (c.toNat : ℤ) - 48 ∧ (c.toNat : ℤ) - 48 ≤ 15) := by omega
    simp only [chrToInt]
    rw [if_neg hcond]

/-- Witness for C7: `'5'` decodes to 5 and `'G'` raises the fixed
`TypeError`. -/
theorem C7_chrToInt_range_witness :
    chrToInt '5' = .ok 5 ∧
    chrToInt 'G' = .error (.typeError "Invalid numeric character") :=
  ⟨(C7_chrToInt_range '5').1 (by decide) (by decide),
   (C7_chrToInt_range 'G').2 (by decide)⟩

/-- C8: a temperature frame (kind code 4) resolves to `"°C"` when bit 3
of `flags[0]` is set and to `"°F"` when it is clear. -/
theorem C8_temperature_unit :
    (∀ f0 f1 f2 : Nat, UT803.getUnit 4 [f0, f1, f2] =
      if f0 &&& 0x8 ≠ 0 then "°C" else "°F")
    ∧ UT803.read "012344800\r\n" = .ok ⟨1234, "°C", "temperature", flagsDictOf 8 0 0⟩
    ∧ UT803.read "012344000\r\n" = .ok ⟨1234, "°F", "temperature", flagsDictOf 0 0 0⟩ := by
  refine ⟨fun f0 f1 f2 => rfl, ?_, ?_⟩
  · rw [show UT803.read "012344800\r\n" =
        .ok ⟨((1234 : ℤ) : ℚ) * (10 : ℚ) ^ (0 : ℤ), "°C", "temperature", flagsDictOf 8 0 0⟩
        from rfl]
    norm_num
  · rw [show UT803.read "012344000\r\n" =
        .ok ⟨((1234 : ℤ) : ℚ) * (10 : ℚ) ^ (0 : ℤ), "°F", "temperature", flagsDictOf 0 0 0⟩
        from rfl]
    norm_num

/-- C9: a decode that completes without error never returns the `"???"`
fallback unit: every kind code accepted by the kind table is either in
the static unit table or is the temperature special case. -/
theorem C9_no_unknown_unit_fallback :
    ∀ (s : String) (r : UT803.Reading), UT803.read s = .ok r → r.unit ≠ "???" := by
  intro s r h
  unfold UT803.read at h
  split at h
  next c0 c1 c2 c3 c4 c5 c6 c7 c8 c9 c10 heq =>
    cases h5 : chrToInt c5 with
    | error e =>
      simp only [UT803.readFrame, h5] at h
      exact UT803.ReadResult.noConfusion h
    | ok m =>
      cases hm : UT803.measurement_type_table m with
      | none =>
        simp only [UT803.readFrame, h5, hm] at h
        exact UT803.ReadResult.noConfusion h
      | some k =>
        cases h6 : chrToInt c6 with
        | error e =>
          simp only [UT803.readFrame, h5, hm, h6] at h
          exact UT803.ReadResult.noConfusion h
        | ok f0 =>
          cases h7 : chrToInt c7 with
          | error e =>
            simp only [UT803.readFrame, h5, hm, h6, h7] at h
            exact UT803.ReadResult.noConfusion h
          | ok f1 =>
            cases h8 : chrToInt c8 with
            | error e =>
              simp only [UT803.readFrame, h5, hm, h6, h7, h8] at h
              exact UT803.ReadResult.noConfusion h
            | ok f2 =>
              cases h0 : chrToInt c0 with
              | error e =>
                simp only [UT803.readFrame, h5, hm, h6, h7, h8, h0] at h
                exact UT803.ReadResult.noConfusion h
              | ok e0 =>
                cases hb : pyInt (String.mk [c1, c2, c3, c4]) with
                | error e =>
                  simp only [UT803.readFrame, h5, hm, h6, h7, h8, h0, hb] at h
                  exact UT803.ReadResult.noConfusion h
                | ok b =>
                  rw [readFrame_eq c0 c1 c2 c3 c4 c5 c6 c7 c8 m f0 f1 f2 e0 k b
                    h5 hm h6 h7 h8 h0 hb] at h
                  injection h with h'
                  subst h'
                  exact getUnit_ne_unknown m k [f0, f1, f2] hm
  next => exact UT803.ReadResult.noConfusion h

/-- Witness for C9: a frequency frame decodes without error and its unit
`"Hz"` is not the fallback. -/
theorem C9_no_unknown_unit_fallback_witness :
    (⟨((1234 : ℤ) : ℚ) * (10 : ℚ) ^ (0 : ℤ), "Hz", "frequency", flagsDictOf 0 0 0⟩ :
      UT803.Reading).unit ≠ "???" :=
  C9_no_unknown_unit_fallback "012342000\r\n" _ rfl

/-- C10: every strictly negative value satisfies the first threshold test
`value < 1e-9`, so `prettyValueFormat` returns `(value * 1e12, "p" + unit)`
for it. -/
theorem C10_negative_values_pico :
    ∀ v : ℚ, v < 0 → ∀ u : String, prettyValueFormat v u = (v * 10 ^ 12, "p" ++ u) := by
  intro v hv u
  have h0 : ¬v = 0 := ne_of_lt hv
  have h1 : v < 1 / 10 ^ 9 := lt_trans hv (by norm_num)
  unfold prettyValueFormat
  rw [if_neg h0, if_pos h1]

/-- Witness for C10: `-5.0` volts is formatted as `-5e12 "pV"`. -/
theorem C10_negative_values_pico_witness :
    prettyValueFormat (-5) "V" = (-5 * 10 ^ 12, "pV") :=
  C10_negative_values_pico (-5) (by norm_num) "V"
